import Mathlib

/-!
Verification of the freq-game core: the effect metadata table and
parameter mapper (src/js/puzzles.js), the scoring function
(src/js/game.js), the effects engine (AudioEffectsEngine, engine source
file), and the audition / playback protocol of the AudioManager
(src/js/audio.js). Real arithmetic of the JavaScript number type is
modelled over the rationals where every operation involved is exact, and
over the reals where logarithms and exponentials occur; binary
floating-point rounding is outside the model.
-/

/-- Static per-effect-family metadata, one row of the PuzzleSystem effects
table (src/js/puzzles.js). -/
structure EffectSpec where
  name : String
  description : String
  parameter : String
  unit : String
  minValue : ℚ
  maxValue : ℚ
  logarithmic : Bool

/-- The nine effect families of the PuzzleSystem constructor table
(src/js/puzzles.js), keyed by effect type string; none for an unknown
key. -/
def effects (effectType : String) : Option EffectSpec :=
  if effectType = "eq" then
    some ⟨"EQ", "Equalizer - Listen for frequency boosts or cuts",
      "frequency", "Hz", 20, 20000, true⟩
  else if effectType = "reverb" then
    some ⟨"Reverb", "Reverb - Listen for room size and wet/dry mix",
      "wetMix", "%", 0, 100, false⟩
  else if effectType = "compression" then
    some ⟨"Compression", "Compression - Listen for dynamic range reduction",
      "threshold", "dB", -60, 0, false⟩
  else if effectType = "delay" then
    some ⟨"Delay", "Delay - Listen for echo timing",
      "time", "ms", 10, 1000, true⟩
  else if effectType = "phaser" then
    some ⟨"Phaser", "Phaser - Listen for modulation rate",
      "rate", "Hz", 0.1, 2.0, true⟩
  else if effectType = "flanger" then
    some ⟨"Flanger", "Flanger - Listen for modulation rate",
      "rate", "Hz", 0.1, 2.0, true⟩
  else if effectType = "chorus" then
    some ⟨"Chorus", "Chorus - Listen for modulation rate",
      "rate", "Hz", 0.1, 2.0, true⟩
  else if effectType = "distortion" then
    some ⟨"Distortion", "Distortion - Listen for drive amount",
      "drive", "", 1, 10, false⟩
  else if effectType = "filter" then
    some ⟨"Filter", "Filter - Listen for cutoff frequency",
      "cutoff", "Hz", 20, 20000, true⟩
  else none

/-- The reverb row of the effects table. -/
def reverbSpec : EffectSpec :=
  ⟨"Reverb", "Reverb - Listen for room size and wet/dry mix",
    "wetMix", "%", 0, 100, false⟩

theorem effects_reverb : effects "reverb" = some reverbSpec := rfl

/-- The EQ row of the effects table. -/
def eqSpec : EffectSpec :=
  ⟨"EQ", "Equalizer - Listen for frequency boosts or cuts",
    "frequency", "Hz", 20, 20000, true⟩

theorem effects_eq_row : effects "eq" = some eqSpec := rfl

/-- Body of PuzzleSystem.valueToSliderPosition for one effect row
(src/js/puzzles.js lines 271-283). -/
noncomputable def specToPosition (effect : EffectSpec) (value : ℝ) : ℝ :=
  if effect.logarithmic then
    let logMin := Real.log effect.minValue
    let logMax := Real.log effect.maxValue
    (Real.log value - logMin) / (logMax - logMin) * 100
  else
    (value - effect.minValue) / (effect.maxValue - effect.minValue) * 100

/-- PuzzleSystem.valueToSliderPosition: physical value to slider position;
0 for an unknown effect type. -/
noncomputable def valueToSliderPosition (effectType : String) (value : ℝ) : ℝ :=
  match effects effectType with
  | none => 0
  | some effect => specToPosition effect value

/-- Body of PuzzleSystem.sliderPositionToValue for one effect row
(src/js/puzzles.js lines 288-302). -/
noncomputable def specToValue (effect : EffectSpec) (sliderPosition : ℝ) : ℝ :=
  let normalized := sliderPosition / 100
  if effect.logarithmic then
    Real.exp (Real.log effect.minValue +
      normalized * (Real.log effect.maxValue - Real.log effect.minValue))
  else
    effect.minValue + normalized * (effect.maxValue - effect.minValue)

/-- PuzzleSystem.sliderPositionToValue: slider position to physical value;
0 for an unknown effect type. -/
noncomputable def sliderPositionToValue (effectType : String) (sliderPosition : ℝ) : ℝ :=
  match effects effectType with
  | none => 0
  | some effect => specToValue effect sliderPosition

/-- Rendering with one digit after the decimal point, as toFixed(1) does on
a nonnegative number: decimal rounding to tenths. -/
noncomputable def toFixedOne (x : ℝ) : String :=
  let tenths : ℤ := round (x * 10)
  toString (tenths / 10) ++ "." ++ toString (tenths.natAbs % 10)

/-- Rendering with two digits after the decimal point, as toFixed(2) does
on a nonnegative number: decimal rounding to hundredths. -/
noncomputable def toFixedTwo (x : ℝ) : String :=
  let hundredths : ℤ := round (x * 100)
  toString (hundredths / 100) ++ "." ++
    toString (hundredths.natAbs / 10 % 10) ++ toString (hundredths.natAbs % 10)

/-- PuzzleSystem.formatParameterValue (src/js/puzzles.js lines 307-320):
Hz at or above 1000 render as tenths of kilohertz followed by k, other Hz
and ms and percent round to an integer, anything else renders with two
decimals. JavaScript Math.round is floor of the value plus one half,
matching round on the reals. -/
noncomputable def formatParameterValue (value : ℝ) (unit : String) : String :=
  if unit = "Hz" then
    if 1000 ≤ value then toFixedOne (value / 1000) ++ "k"
    else toString (round value)
  else if unit = "ms" then toString (round value)
  else if unit = "%" then toString (round value)
  else toFixedTwo value

/-- FreqGame.calculateScore (src/js/game.js lines 417-434), with the
effect metadata row passed explicitly (the source reads it from the
current puzzle through getEffectMetadata). -/
def calculateScore (effect : EffectSpec) (guess correct : ℚ) : ℚ :=
  let range := effect.maxValue - effect.minValue
  let difference := |guess - correct|
  let percentageOff := difference / range * 100
  if percentageOff = 0 then 100
  else if percentageOff ≤ 5 then 90
  else if percentageOff ≤ 15 then 75
  else if percentageOff ≤ 30 then 50
  else max 25 (100 - percentageOff)

/-- The distance measure calculateScore bands on. -/
def percentOff (effect : EffectSpec) (guess correct : ℚ) : ℚ :=
  |guess - correct| / (effect.maxValue - effect.minValue) * 100

theorem calculateScore_eq (effect : EffectSpec) (guess correct : ℚ) :
    calculateScore effect guess correct =
      if percentOff effect guess correct = 0 then 100
      else if percentOff effect guess correct ≤ 5 then 90
      else if percentOff effect guess correct ≤ 15 then 75
      else if percentOff effect guess correct ≤ 30 then 50
      else max 25 (100 - percentOff effect guess correct) := rfl

theorem spec_roundTrip (effect : EffectSpec)
    (hpos : effect.logarithmic = true → (0 : ℝ) < effect.minValue)
    (hlt : (effect.minValue : ℝ) < effect.maxValue) (p : ℝ) :
    specToPosition effect (specToValue effect p) = p := by
  unfold specToPosition specToValue
  by_cases hl : effect.logarithmic = true
  · have h0 := hpos hl
    have hne : Real.log effect.maxValue - Real.log effect.minValue ≠ 0 :=
      sub_ne_zero.mpr (ne_of_gt (Real.log_lt_log h0 hlt))
    simp only [hl, if_true, Real.log_exp]
    field_simp
    ring
  · have hne : (effect.maxValue : ℝ) - effect.minValue ≠ 0 :=
      sub_ne_zero.mpr (ne_of_gt hlt)
    simp only [hl, if_false]
    field_simp
    ring

/-- C3: for every effect spec, logarithmic or linear, converting a slider
position to a physical value and back yields the position again, exactly
over real arithmetic. -/
theorem slider_position_roundTrip (effectType : String)
    (h : effectType ∈ ["eq", "reverb", "compression", "delay", "phaser",
      "flanger", "chorus", "distortion", "filter"])
    (p : ℝ) (hp0 : 0 ≤ p) (hp1 : p ≤ 100) :
    valueToSliderPosition effectType (sliderPositionToValue effectType p) = p := by
  fin_cases h <;>
    exact spec_roundTrip _ (by intro hl; first | exact absurd hl (by decide) | norm_num) (by norm_num) p

theorem slider_position_roundTrip_witness :
    valueToSliderPosition "delay" (sliderPositionToValue "delay" 50) = 50 :=
  slider_position_roundTrip "delay" (by decide) 50 (by norm_num) (by norm_num)

/-- C4 counterexample: with the reverb spec (range 0 to 100), guess 0
against correct value 40.5 gives percentOff 40.5 and score 59.5, which is
not an integer: the claimed integer codomain fails. -/
theorem calculateScore_not_integer :
    calculateScore reverbSpec 0 (81 / 2) = 119 / 2 ∧
    ¬ ∃ n : ℤ, calculateScore reverbSpec 0 (81 / 2) = (n : ℚ) := by
  have h : calculateScore reverbSpec 0 (81 / 2) = 119 / 2 := by
    norm_num [calculateScore, reverbSpec, abs_of_nonpos, abs_of_nonneg]
  refine ⟨h, ?_⟩
  rintro ⟨n, hn⟩
  rw [h] at hn
  have h2 : (119 : ℚ) = 2 * (n : ℚ) := by linarith
  have h3 : (119 : ℤ) = 2 * n := by exact_mod_cast h2
  omega

/-- C4 (amended): calculateScore always lies in the interval from 25 to
100 and is computed by the stated banding of percentOff, but its codomain
is rational, not integral: in the final band the value 100 minus
percentOff need not be whole. -/
theorem calculateScore_range_and_bands (effect : EffectSpec) (guess correct : ℚ) :
    25 ≤ calculateScore effect guess correct ∧
    calculateScore effect guess correct ≤ 100 ∧
    calculateScore effect guess correct =
      (if percentOff effect guess correct = 0 then 100
       else if percentOff effect guess correct ≤ 5 then 90
       else if percentOff effect guess correct ≤ 15 then 75
       else if percentOff effect guess correct ≤ 30 then 50
       else max 25 (100 - percentOff effect guess correct)) := by
  refine ⟨?_, ?_, calculateScore_eq effect guess correct⟩ <;>
    rw [calculateScore_eq] <;> split_ifs with h1 h2 h3 h4
  · norm_num
  · norm_num
  · norm_num
  · norm_num
  · exact le_max_left _ _
  · norm_num
  · norm_num
  · norm_num
  · norm_num
  · push_neg at h4
    exact max_le (by norm_num) (by linarith)

/-- C5 counterexample: with the reverb spec, correct value 0, the guess 30
scores 50 (percentOff 30, last band of the table) while the farther guess
31 scores 69 (percentOff 31, fallback formula): the score increases as the
distance grows, so it is not monotonic non-increasing. -/
theorem calculateScore_not_monotone :
    |(31 : ℚ) - 0| > |(30 : ℚ) - 0| ∧
    calculateScore reverbSpec 30 0 = 50 ∧
    calculateScore reverbSpec 31 0 = 69 ∧
    calculateScore reverbSpec 30 0 < calculateScore reverbSpec 31 0 := by
  have h30 : calculateScore reverbSpec 30 0 = 50 := by
    norm_num [calculateScore, reverbSpec, abs_of_nonneg]
  have h31 : calculateScore reverbSpec 31 0 = 69 := by
    norm_num [calculateScore, reverbSpec, abs_of_nonneg]
  refine ⟨by norm_num, h30, h31, ?_⟩
  rw [h30, h31]
  norm_num

theorem band_mono_of_le_30 (p1 p2 : ℚ) (h0 : 0 ≤ p1) (h12 : p1 ≤ p2)
    (hc : p2 ≤ 30) :
    (if p2 = 0 then (100 : ℚ) else if p2 ≤ 5 then 90 else if p2 ≤ 15 then 75
      else if p2 ≤ 30 then 50 else max 25 (100 - p2)) ≤
    (if p1 = 0 then (100 : ℚ) else if p1 ≤ 5 then 90 else if p1 ≤ 15 then 75
      else if p1 ≤ 30 then 50 else max 25 (100 - p1)) := by
  by_cases e1 : p1 = 0
  · subst e1
    have h100 : (if (0 : ℚ) = 0 then (100 : ℚ) else if (0 : ℚ) ≤ 5 then 90
        else if (0 : ℚ) ≤ 15 then 75 else if (0 : ℚ) ≤ 30 then 50
        else max 25 (100 - 0)) = 100 := by norm_num
    rw [h100]
    split_ifs <;> first | linarith | (exfalso; linarith)
  · have e2 : ¬ p2 = 0 := by intro h; linarith [lt_of_le_of_ne h0 (fun h2 => e1 h2.symm)]
    rw [if_neg e1, if_neg e2]
    split_ifs <;> first | linarith | (exfalso; linarith)

theorem band_mono_of_gt_30 (p1 p2 : ℚ) (h12 : p1 ≤ p2) (hc : 30 < p1) :
    (if p2 = 0 then (100 : ℚ) else if p2 ≤ 5 then 90 else if p2 ≤ 15 then 75
      else if p2 ≤ 30 then 50 else max 25 (100 - p2)) ≤
    (if p1 = 0 then (100 : ℚ) else if p1 ≤ 5 then 90 else if p1 ≤ 15 then 75
      else if p1 ≤ 30 then 50 else max 25 (100 - p1)) := by
  have h2 : 30 < p2 := lt_of_lt_of_le hc h12
  rw [if_neg (by intro h; linarith), if_neg (by intro h; linarith),
    if_neg (by intro h; linarith), if_neg (by intro h; linarith),
    if_neg (by intro h; linarith), if_neg (by intro h; linarith),
    if_neg (by intro h; linarith), if_neg (by intro h; linarith)]
  exact max_le_max (le_refl 25) (by linarith)

/-- C5 (amended): the score has a floor of 25 everywhere, and it is
monotonic non-increasing in the distance within the banded region where
percentOff stays at most 30, and again within the fallback region where
percentOff exceeds 30; across the boundary at percentOff 30 it is not
(the score jumps from 50 up toward 70). -/
theorem calculateScore_floor_and_piecewise_mono (effect : EffectSpec)
    (correct g1 g2 : ℚ) (hrange : effect.minValue < effect.maxValue)
    (h12 : |g1 - correct| ≤ |g2 - correct|) :
    25 ≤ calculateScore effect g2 correct ∧
    (percentOff effect g2 correct ≤ 30 →
      calculateScore effect g2 correct ≤ calculateScore effect g1 correct) ∧
    (30 < percentOff effect g1 correct →
      calculateScore effect g2 correct ≤ calculateScore effect g1 correct) := by
  have hr : (0 : ℚ) < effect.maxValue - effect.minValue := sub_pos.mpr hrange
  have hp0 : 0 ≤ percentOff effect g1 correct :=
    mul_nonneg (div_nonneg (abs_nonneg _) hr.le) (by norm_num)
  have hple : percentOff effect g1 correct ≤ percentOff effect g2 correct := by
    unfold percentOff
    gcongr
  refine ⟨?_, ?_, ?_⟩
  · rw [calculateScore_eq]
    split_ifs <;> first | norm_num | exact le_max_left _ _
  · intro hb
    rw [calculateScore_eq, calculateScore_eq]
    exact band_mono_of_le_30 _ _ hp0 hple hb
  · intro hb
    rw [calculateScore_eq, calculateScore_eq]
    exact band_mono_of_gt_30 _ _ hple hb

theorem calculateScore_floor_and_piecewise_mono_witness :
    25 ≤ calculateScore reverbSpec 20 0 ∧
    (percentOff reverbSpec 20 0 ≤ 30 →
      calculateScore reverbSpec 20 0 ≤ calculateScore reverbSpec 10 0) ∧
    (30 < percentOff reverbSpec 10 0 →
      calculateScore reverbSpec 20 0 ≤ calculateScore reverbSpec 10 0) :=
  calculateScore_floor_and_piecewise_mono reverbSpec 0 10 20
    (by norm_num [reverbSpec]) (by norm_num)

theorem eq_slider_mid_eq_sqrt :
    sliderPositionToValue "eq" 50 = Real.sqrt 400000 := by
  have h1 : sliderPositionToValue "eq" 50 =
      Real.exp (Real.log 20 + 50 / 100 * (Real.log 20000 - Real.log 20)) := by
    have h0 : sliderPositionToValue "eq" 50 = specToValue eqSpec 50 := by
      unfold sliderPositionToValue
      rw [effects_eq_row]
    rw [h0]
    unfold specToValue
    norm_num [eqSpec]
  rw [h1]
  have h2 : Real.log 20 + 50 / 100 * (Real.log 20000 - Real.log 20) =
      Real.log 400000 * (1 / 2) := by
    have hm : Real.log 400000 = Real.log 20 + Real.log 20000 := by
      rw [← Real.log_mul (by norm_num) (by norm_num)]
      norm_num
    rw [hm]
    ring
  rw [h2, Real.sqrt_eq_rpow,
    Real.rpow_def_of_pos (by norm_num : (0 : ℝ) < 400000)]

theorem sqrt_400000_bounds :
    (632.45 : ℝ) < Real.sqrt 400000 ∧ Real.sqrt 400000 < 632.46 := by
  have h := Real.sq_sqrt (by norm_num : (0 : ℝ) ≤ 400000)
  have hnn := Real.sqrt_nonneg (400000 : ℝ)
  constructor <;> nlinarith [h, hnn]

theorem round_sqrt_400000 : round (Real.sqrt 400000) = 632 := by
  obtain ⟨hlo, hhi⟩ := sqrt_400000_bounds
  rw [round_eq]
  rw [Int.floor_eq_iff]
  constructor
  · push_cast
    linarith
  · push_cast
    linarith

theorem format_eq_slider_mid_value :
    formatParameterValue (sliderPositionToValue "eq" 50) "Hz" = "632" := by
  rw [eq_slider_mid_eq_sqrt]
  obtain ⟨hlo, hhi⟩ := sqrt_400000_bounds
  unfold formatParameterValue
  rw [if_pos rfl, if_neg (by push_neg; linarith), round_sqrt_400000]
  rfl

/-- C6 counterexample: the EQ spec with slider at 50 gives a physical
value just above 632.45 Hz, which the formatter renders as the string 632
(the kilohertz form applies only at or above 1000), not as 0.6k. -/
theorem format_eq_slider_mid_ne :
    formatParameterValue (sliderPositionToValue "eq" 50) "Hz" ≠ "0.6k" := by
  rw [format_eq_slider_mid_value]
  decide

/-- C6 (amended): for the EQ spec, slider position 50 maps to the square
root of 20 times 20000, about 632.46 Hz, and formatting that value with
unit Hz renders the string 632. -/
theorem eq_slider_mid_value_and_format :
    sliderPositionToValue "eq" 50 = Real.sqrt (20 * 20000) ∧
    (632.45 : ℝ) < sliderPositionToValue "eq" 50 ∧
    sliderPositionToValue "eq" 50 < 632.46 ∧
    formatParameterValue (sliderPositionToValue "eq" 50) "Hz" = "632" := by
  have hs : sliderPositionToValue "eq" 50 = Real.sqrt 400000 :=
    eq_slider_mid_eq_sqrt
  obtain ⟨hlo, hhi⟩ := sqrt_400000_bounds
  refine ⟨by rw [hs]; norm_num, by rw [hs]; exact hlo, by rw [hs]; exact hhi,
    format_eq_slider_mid_value⟩

/-- Gain values of the reverb chain built by
AudioEffectsEngine.createReverbNode (engine source lines 199-235): the dry
gain is set to (100 - wetMix) / 100 and the wet gain to wetMix / 100. The
params map of the chain exposes wetMix (the wet gain AudioParam) and
roomSize (null, not settable). -/
structure ReverbChain where
  dryGainValue : ℚ
  wetGainValue : ℚ
deriving DecidableEq

/-- createReverbNode, restricted to the gain values it sets. -/
def createReverbNode (wetMix : ℚ) : ReverbChain :=
  { dryGainValue := (100 - wetMix) / 100, wetGainValue := wetMix / 100 }

/-- AudioEffectsEngine.updateEffectParameters (engine source lines 78-92)
acting on a reverb chain: a param entry is written with setValueAtTime to
the raw incoming value when the name is present and non-null in the params
map; for the reverb chain only wetMix qualifies (roomSize is null and the
dry gain is not in the map at all). -/
def reverbUpdateParameters (chain : ReverbChain) (param : String) (value : ℚ) :
    ReverbChain :=
  if param = "wetMix" then { chain with wetGainValue := value } else chain

/-- C8 counterexample: build the reverb chain at wetMix 50 (gains one half
and one half) and retarget wetMix to 55 through updateEffectParameters:
the wet gain becomes the raw value 55, the dry gain stays one half, and
the two no longer sum to 1. -/
theorem reverb_gains_sum_broken_after_update :
    (reverbUpdateParameters (createReverbNode 50) "wetMix" 55).wetGainValue +
      (reverbUpdateParameters (createReverbNode 50) "wetMix" 55).dryGainValue
      ≠ 1 := by
  norm_num [reverbUpdateParameters, createReverbNode]

/-- C8 (amended): at construction the wet and dry gains are complementary
and sum to 1; a real-time retarget of wetMix through
updateEffectParameters writes only the wet gain, and writes the raw
incoming value rather than value / 100, leaving the dry gain at its
construction value, so the sum-to-1 invariant holds only at
construction. -/
theorem reverb_gains_complementary_at_construction (wetMix value : ℚ) :
    (createReverbNode wetMix).wetGainValue +
      (createReverbNode wetMix).dryGainValue = 1 ∧
    (reverbUpdateParameters (createReverbNode wetMix) "wetMix" value).wetGainValue
      = value ∧
    (reverbUpdateParameters (createReverbNode wetMix) "wetMix" value).dryGainValue
      = (100 - wetMix) / 100 := by
  refine ⟨?_, rfl, rfl⟩
  unfold createReverbNode
  ring

/-- Nodes of the reverb signal graph: the buffer source and destination
wired by playAudio, and the five nodes createReverbNode creates (channel
splitter used as input, convolver, dry gain, wet gain, channel merger used
as output). -/
inductive RNode where
  | source
  | splitterInput
  | convolver
  | dryGain
  | wetGain
  | merger
  | destination
deriving DecidableEq

/-- Connections made inside createReverbNode (engine source lines
199-235): the function creates its nodes but never calls connect, so the
chain has no internal edges. -/
def reverbChainConnections : List (RNode × RNode) := []

/-- Connections live after playAudio starts a source through the reverb
chain (engine source lines 97-150): source.connect(chain.input) and
chain.output.connect(destination), plus whatever the chain wired
internally. -/
def reverbPlayConnections : List (RNode × RNode) :=
  (RNode.source, RNode.splitterInput) :: (RNode.merger, RNode.destination) ::
    reverbChainConnections

/-- A signal path along directed connect edges. -/
def reachable (edges : List (RNode × RNode)) (a b : RNode) : Prop :=
  Relation.ReflTransGen (fun x y => (x, y) ∈ edges) a b

/-- C10: createReverbNode wires nothing internally - in particular nothing
out of the input splitter and nothing into the output merger - and since
playAudio only adds the edges into chain.input and out of chain.output, no
signal path leads from the reverb chain input endpoint to its output
endpoint. -/
theorem reverb_no_signal_path :
    reverbChainConnections = [] ∧
    ¬ reachable reverbPlayConnections RNode.splitterInput RNode.merger := by
  refine ⟨rfl, ?_⟩
  intro h
  rcases h.cases_head with heq | ⟨c, hstep, _⟩
  · exact RNode.noConfusion heq
  · simp [reverbPlayConnections, reverbChainConnections] at hstep

/-- Resource view of AudioEffectsEngine (engine source): the chains
constructed and not yet disconnected; the sources currently rendering
(started and neither stopped nor naturally finished); the current chain
and source references the engine fields hold; the ended events queued by
the Web Audio platform whose installed onended handler has not yet run;
a counter allocating fresh identities; the sample and playing flags. Per
Web Audio semantics a started source fires its ended event once when it
stops rendering, whether it finishes the buffer or stop() is called on
it, and the event is delivered asynchronously, possibly after the engine
has already started a newer source. -/
structure EngineResources where
  liveChains : List ℕ
  currentChain : Option ℕ
  liveSources : List ℕ
  currentSource : Option ℕ
  pendingEnded : ℕ
  nextId : ℕ
  hasBuffer : Bool
  playing : Bool

/-- Engine state right after the constructor runs: no chain, no source, no
sample loaded, no queued ended event. -/
def initialEngine : EngineResources :=
  { liveChains := [], currentChain := none, liveSources := [],
    currentSource := none, pendingEnded := 0, nextId := 0,
    hasBuffer := false, playing := false }

/-- The engine operations and platform events: loading the dry sample,
createEffectChain with a known or unknown effect type, playAudio,
stopAudio, disconnectEffectChain, the natural finish of a rendering
source, and the asynchronous delivery of one queued ended event to the
installed onended handler. -/
inductive EngineOp where
  | load
  | build (known : Bool)
  | play
  | stop
  | disconnect
  | naturalEnd (sid : ℕ)
  | endedFire

/-- AudioEffectsEngine.stopAudio (engine source lines 155-161): stop()
the referenced source and drop the reference, clear the playing flag. If
the referenced source was still rendering, stop() terminates it and the
platform queues its ended event; stop() on a source that already
finished fires nothing further. -/
def engineStopAudio (s : EngineResources) : EngineResources :=
  match s.currentSource with
  | none => { s with playing := false }
  | some src =>
      if src ∈ s.liveSources then
        { s with
          liveSources := s.liveSources.erase src,
          currentSource := none,
          pendingEnded := s.pendingEnded + 1,
          playing := false }
      else
        { s with currentSource := none, playing := false }

/-- AudioEffectsEngine.disconnectEffectChain (engine source lines
166-173): disconnect and drop the current chain, if any. -/
def engineDisconnectChain (s : EngineResources) : EngineResources :=
  match s.currentChain with
  | none => s
  | some c =>
      { s with
        liveChains := s.liveChains.erase c,
        currentChain := none }

/-- AudioEffectsEngine.createEffectChain (engine source lines 52-73): an
unknown effect type throws before anything is touched; otherwise any
existing chain is disconnected first and only then is the new chain
constructed and installed. -/
def engineBuild (s : EngineResources) (known : Bool) : EngineResources :=
  if known = false then s
  else
    let s1 := match s.currentChain with
      | none => s
      | some _ => engineDisconnectChain s
    { s1 with
      liveChains := s1.nextId :: s1.liveChains,
      currentChain := some s1.nextId,
      nextId := s1.nextId + 1 }

/-- AudioEffectsEngine.playAudio (engine source lines 97-150): nothing
happens without a sample and a chain; otherwise stopAudio runs first, and
then a new source is created, connected, started and installed as the
current source. -/
def enginePlay (s : EngineResources) : EngineResources :=
  if s.hasBuffer = false ∨ s.currentChain = none then s
  else
    let s1 := engineStopAudio s
    { s1 with
      liveSources := s1.nextId :: s1.liveSources,
      currentSource := some s1.nextId,
      nextId := s1.nextId + 1,
      playing := true }

/-- A rendering source reaches the end of its buffer: it stops rendering
and the platform queues its ended event. -/
def engineNaturalEnd (s : EngineResources) (sid : ℕ) : EngineResources :=
  if sid ∈ s.liveSources then
    { s with
      liveSources := s.liveSources.erase sid,
      pendingEnded := s.pendingEnded + 1 }
  else s

/-- Delivery of one queued ended event: the onended handler installed by
playAudio (engine source lines 137-142) runs, and it clears the playing
flag and nulls this.currentSource unconditionally - it does not check
that the event belongs to the source the field currently references. -/
def engineEndedFire (s : EngineResources) : EngineResources :=
  match s.pendingEnded with
  | 0 => s
  | pend + 1 =>
      { s with
        pendingEnded := pend,
        currentSource := none,
        playing := false }

def engineStep (s : EngineResources) : EngineOp → EngineResources
  | EngineOp.load => { s with hasBuffer := true }
  | EngineOp.build known => engineBuild s known
  | EngineOp.play => enginePlay s
  | EngineOp.stop => engineStopAudio s
  | EngineOp.disconnect => engineDisconnectChain s
  | EngineOp.naturalEnd sid => engineNaturalEnd s sid
  | EngineOp.endedFire => engineEndedFire s

def engineRun (s : EngineResources) (ops : List EngineOp) : EngineResources :=
  ops.foldl engineStep s

/-- C7 fails: load a sample, build a chain, play, play again (the restart
stops source 1 and queues its ended event), let the queued handler of
source 1 fire (it nulls the reference to the still-rendering source 2),
and play a third time: stopAudio finds no referenced source, stops
nothing, and starts source 3 while source 2 is still rendering - two
sources render concurrently, against the at-most-one-playing-source
invariant (the chain side stays at one). -/
theorem play_restart_stale_ended_two_live_sources :
    (engineRun initialEngine [EngineOp.load, EngineOp.build true,
      EngineOp.play, EngineOp.play, EngineOp.endedFire,
      EngineOp.play]).liveSources = [3, 2] ∧
    (engineRun initialEngine [EngineOp.load, EngineOp.build true,
      EngineOp.play, EngineOp.play, EngineOp.endedFire,
      EngineOp.play]).liveSources.length = 2 ∧
    (engineRun initialEngine [EngineOp.load, EngineOp.build true,
      EngineOp.play, EngineOp.play, EngineOp.endedFire,
      EngineOp.play]).liveChains.length = 1 := by
  exact ⟨rfl, rfl, rfl⟩

/-- Association list update used to model setValueAtTime on a params map:
only a key already present is written; an absent key is left alone, as
updateEffectParameters skips names whose params entry is missing or
null. -/
def setParam : List (String × ℚ) → String → ℚ → List (String × ℚ)
  | [], _, _ => []
  | (k, x) :: rest, name, v =>
      if k = name then (k, v) :: rest else (k, x) :: setParam rest name v

def lookupParamList : List (String × ℚ) → String → Option ℚ
  | [], _ => none
  | (k, x) :: rest, name => if k = name then some x else lookupParamList rest name

/-- A live effect chain as the audition protocol sees it: the automatable
params map from parameter name to the current AudioParam value. -/
structure ChainParams where
  params : List (String × ℚ)
deriving DecidableEq

/-- AudioEffectsEngine state as the AudioManager audition path uses it:
the decoded dry sample, the current chain, the playing flag and source
reference, and whether the underlying audio backend lets a new source
start (the try block of playAudio catches a failing createBufferSource,
connect or start and returns false). -/
structure EngineState where
  drySampleBuffer : Bool
  currentEffectChain : Option ChainParams
  enginePlaying : Bool
  engineSource : Bool
  backendOk : Bool
deriving DecidableEq

/-- AudioEffectsEngine.updateEffectParameters (engine source lines 78-92)
for a single name and value: a no-op without a chain, otherwise
setValueAtTime on the named param if present. -/
def updateEffectParameters (s : EngineState) (name : String) (value : ℚ) :
    EngineState :=
  match s.currentEffectChain with
  | none => s
  | some chain =>
      { s with
        currentEffectChain := some ⟨setParam chain.params name value⟩ }

/-- AudioEffectsEngine.stopAudio (engine source lines 155-161). -/
def engineStateStop (s : EngineState) : EngineState :=
  { s with engineSource := false, enginePlaying := false }

/-- AudioEffectsEngine.playAudio (engine source lines 97-150): false
without sample or chain; otherwise stop whatever plays, then start a new
source, which the backend may refuse (caught and returned as false). -/
def engineStatePlay (s : EngineState) : Bool × EngineState :=
  if s.drySampleBuffer = false ∨ s.currentEffectChain = none then (false, s)
  else
    let s1 := engineStateStop s
    if s1.backendOk then
      (true, { s1 with enginePlaying := true, engineSource := true })
    else (false, s1)

/-- The puzzle fields the audition path reads (src/js/audio.js): effect
type, guessable parameter name and hidden correct value. -/
structure Puzzle where
  effectType : String
  parameter : String
  correctValue : ℚ
deriving DecidableEq

/-- AudioManager state for the audition protocol (src/js/audio.js):
remaining lives, the loaded puzzle, the effects engine, the manager level
playing flag and dry-play source reference. -/
structure ManagerState where
  remainingLives : ℕ
  currentPuzzle : Option Puzzle
  effectsEngine : Option EngineState
  isPlaying : Bool
  currentSource : Bool
deriving DecidableEq

/-- AudioManager.mapParameterName (src/js/audio.js lines 647-650). -/
def mapParameterName (effectType paramName : String) : String :=
  if effectType = "filter" ∧ paramName = "cutoff" then "frequency" else paramName

/-- AudioManager.stopAllAudio (src/js/audio.js lines 973-984): drop the
dry source, stop the engine, clear the playing flag. -/
def stopAllAudio (m : ManagerState) : ManagerState :=
  { m with
    currentSource := false,
    effectsEngine := m.effectsEngine.map engineStateStop,
    isPlaying := false }

/-- updateEffectParameters lifted through the manager reference to the
engine, as the audition path calls it. -/
def managerUpdateParams (m : ManagerState) (name : String) (value : ℚ) :
    ManagerState :=
  { m with
    effectsEngine := m.effectsEngine.map
      (fun e => updateEffectParameters e name value) }

/-- AudioManager.playEffectedAudio (src/js/audio.js lines 842-869): false
without an engine or chain; otherwise stopAllAudio, then the engine
playAudio, whose success is passed through. -/
def playEffectedAudio (m : ManagerState) : Bool × ManagerState :=
  match m.effectsEngine with
  | none => (false, m)
  | some e =>
      if e.currentEffectChain = none then (false, m)
      else
        let m1 := stopAllAudio m
        match m1.effectsEngine with
        | none => (false, m1)
        | some e1 =>
            let r := engineStatePlay e1
            (r.1, { m1 with
              effectsEngine := some r.2,
              isPlaying := if r.1 then true else m1.isPlaying })

/-- AudioManager.auditionParameter (src/js/audio.js lines 874-916): guard
on lives, engine and puzzle; apply the guessed value to the mapped
parameter; play; on success decrement lives and restore the hidden correct
value; on a failed play return false. -/
def auditionParameter (m : ManagerState) (parameterName : String) (value : ℚ) :
    Bool × ManagerState :=
  if m.remainingLives = 0 then (false, m)
  else
    match m.effectsEngine, m.currentPuzzle with
    | none, _ => (false, m)
    | some _, none => (false, m)
    | some _, some puzzle =>
        let mapped := mapParameterName puzzle.effectType parameterName
        let m1 := managerUpdateParams m mapped value
        let r := playEffectedAudio m1
        if r.1 then
          let m2 := { r.2 with remainingLives := r.2.remainingLives - 1 }
          let m3 := managerUpdateParams m2 mapped puzzle.correctValue
          (true, m3)
        else (false, r.2)

/-- The onended completion callback installed on a dry source
(src/js/audio.js lines 824-828): clears the playing flag and the source
reference; it never touches the lives. -/
def managerSourceEnded (m : ManagerState) : ManagerState :=
  { m with isPlaying := false, currentSource := false }

theorem managerUpdateParams_lives (m : ManagerState) (name : String) (v : ℚ) :
    (managerUpdateParams m name v).remainingLives = m.remainingLives := rfl

theorem playEffectedAudio_lives (m : ManagerState) :
    (playEffectedAudio m).2.remainingLives = m.remainingLives := by
  unfold playEffectedAudio
  cases he : m.effectsEngine with
  | none => rfl
  | some e =>
      by_cases hch : e.currentEffectChain = none
      · simp [hch]
      · simp only [hch, if_neg, stopAllAudio, he, Option.map_some]
        split_ifs <;> rfl

theorem auditionParameter_lives_change (m : ManagerState) (name : String)
    (v : ℚ) :
    ((auditionParameter m name v).1 = true ∧ m.remainingLives ≠ 0 ∧
      (auditionParameter m name v).2.remainingLives = m.remainingLives - 1) ∨
    ((auditionParameter m name v).1 = false ∧
      (auditionParameter m name v).2.remainingLives = m.remainingLives) := by
  unfold auditionParameter
  by_cases hl : m.remainingLives = 0
  · rw [if_pos hl]
    exact Or.inr ⟨rfl, rfl⟩
  · rw [if_neg hl]
    cases he : m.effectsEngine with
    | none => exact Or.inr ⟨rfl, rfl⟩
    | some e =>
        cases hp : m.currentPuzzle with
        | none => exact Or.inr ⟨rfl, rfl⟩
        | some puzzle =>
            by_cases hr : (playEffectedAudio (managerUpdateParams m
                (mapParameterName puzzle.effectType name) v)).1 = true
            · left
              refine ⟨by simp [hr], hl, ?_⟩
              simp only [hr, if_true]
              rw [managerUpdateParams_lives]
              show (playEffectedAudio (managerUpdateParams m
                (mapParameterName puzzle.effectType name) v)).2.remainingLives
                  - 1 = m.remainingLives - 1
              rw [playEffectedAudio_lives, managerUpdateParams_lives]
            · right
              rw [Bool.not_eq_true] at hr
              refine ⟨by simp [hr], ?_⟩
              simp only [hr, Bool.false_eq_true, if_false]
              rw [playEffectedAudio_lives, managerUpdateParams_lives]

/-- C2: audition with zero remaining lives, or without an engine or a
loaded puzzle, returns false with the state untouched (no life spent, the
graph untouched); when the play starts successfully exactly one life is
consumed; a failed play consumes none; and the playback completion
callback never touches the lives. -/
theorem auditionParameter_life_contract (m : ManagerState) (name : String)
    (v : ℚ) :
    (m.remainingLives = 0 → auditionParameter m name v = (false, m)) ∧
    (m.effectsEngine = none ∨ m.currentPuzzle = none →
      auditionParameter m name v = (false, m)) ∧
    ((auditionParameter m name v).1 = true →
      1 ≤ m.remainingLives ∧
      (auditionParameter m name v).2.remainingLives = m.remainingLives - 1) ∧
    ((auditionParameter m name v).1 = false →
      (auditionParameter m name v).2.remainingLives = m.remainingLives) ∧
    (managerSourceEnded m).remainingLives = m.remainingLives := by
  refine ⟨?_, ?_, ?_, ?_, rfl⟩
  · intro h0
    unfold auditionParameter
    rw [if_pos h0]
  · intro hor
    by_cases hl : m.remainingLives = 0
    · unfold auditionParameter
      rw [if_pos hl]
    · unfold auditionParameter
      rw [if_neg hl]
      rcases hor with h | h
      · rw [h]
      · cases he : m.effectsEngine with
        | none => rfl
        | some e => rw [h]
  · intro hsucc
    rcases auditionParameter_lives_change m name v with ⟨_, hne, hdec⟩ | ⟨hfalse, _⟩
    · exact ⟨Nat.one_le_iff_ne_zero.mpr hne, hdec⟩
    · rw [hsucc] at hfalse
      exact absurd hfalse (by simp)
  · intro hfail
    rcases auditionParameter_lives_change m name v with ⟨htrue, _, _⟩ | ⟨_, heq⟩
    · rw [hfail] at htrue
      exact absurd htrue (by simp)
    · exact heq

/-- The value the graph guessable parameter control reads, through the
manager and chain references. -/
def readGraphParam (m : ManagerState) (name : String) : Option ℚ :=
  match m.effectsEngine with
  | none => none
  | some e =>
      match e.currentEffectChain with
      | none => none
      | some chain => lookupParamList chain.params name

/-- A loaded filter puzzle (guessable parameter cutoff, hidden correct
value 1200, chain control frequency at 1200, sample decoded, five lives)
in which the audio backend refuses to start a source, so playAudio throws
inside its try block and returns false - the PlaybackFailure case. -/
def auditionFailState : ManagerState :=
  { remainingLives := 5,
    currentPuzzle := some ⟨"filter", "cutoff", 1200⟩,
    effectsEngine := some
      { drySampleBuffer := true,
        currentEffectChain := some ⟨[("frequency", 1200)]⟩,
        enginePlaying := false,
        engineSource := false,
        backendOk := false },
    isPlaying := false,
    currentSource := false }

/-- C1 fails on a failing play: auditioning cutoff 5000 in a loaded state
whose playback fails to start returns false, no life is spent, and the
graph guessable control is left reading the audited guess 5000 instead of
the hidden correct value 1200 - the restore to correctValue is skipped
because it sits inside the success branch. -/
theorem audition_restore_skipped_on_failed_play :
    (auditionParameter auditionFailState "cutoff" 5000).1 = false ∧
    (auditionParameter auditionFailState "cutoff" 5000).2.remainingLives = 5 ∧
    readGraphParam (auditionParameter auditionFailState "cutoff" 5000).2
      "frequency" = some 5000 ∧
    readGraphParam (auditionParameter auditionFailState "cutoff" 5000).2
      "frequency" ≠ some 1200 := by
  refine ⟨rfl, rfl, rfl, ?_⟩
  intro h
  have h2 : (5000 : ℚ) = 1200 := by
    have h3 : some (5000 : ℚ) = some 1200 := by
      rw [← h]
      rfl
    exact Option.some.inj h3
  norm_num at h2

/-- PlaybackController lifecycle events: starting a play (playDrySample or
playAudio), calling stop (stopAllAudio or stopAudio), and the natural end
of the buffer. -/
inductive PlayOp where
  | play
  | stop
  | naturalEnd

/-- The playback source lifecycle state: whether a started source is still
live. -/
structure PlayerState where
  sourceLive : Bool
  playing : Bool
deriving DecidableEq

/-- One lifecycle step, returning the next state and how many
audio-playback-ended completion notifications are dispatched by the
installed onended handlers (src/js/audio.js lines 824-828, engine source
lines 137-142). Per Web Audio semantics an AudioScheduledSourceNode fires
its ended event both when the buffer finishes and after stop() is called
on it, and the handler the source carries dispatches the notification
unconditionally in either case; starting a new play first stops a live
source (src/js/audio.js lines 808-809, engine source line 111), which
likewise fires the ended event of the stopped source. -/
def playStep : PlayerState → PlayOp → PlayerState × ℕ
  | s, PlayOp.play =>
      ({ sourceLive := true, playing := true }, if s.sourceLive then 1 else 0)
  | s, PlayOp.stop =>
      ({ sourceLive := false, playing := false }, if s.sourceLive then 1 else 0)
  | s, PlayOp.naturalEnd =>
      if s.sourceLive then ({ sourceLive := false, playing := false }, 1)
      else (s, 0)

/-- The idle controller: nothing playing. -/
def idlePlayer : PlayerState := { sourceLive := false, playing := false }

/-- C9 fails for stop-induced termination: playing once from idle and then
stopping before the natural end dispatches the completion notification on
the stop transition - the onended handler runs after stop() too, so the
notification is not reserved to natural playback end. -/
theorem stop_dispatches_completion_notification :
    (playStep idlePlayer PlayOp.play).2 = 0 ∧
    (playStep (playStep idlePlayer PlayOp.play).1 PlayOp.stop).2 = 1 := by
  exact ⟨rfl, rfl⟩
